/-
  Verification of the MCPStack repository scripts.

  Shallow embedding of the Python sources:
    - idea_agent.py              (namespace IdeaAgent)
    - advanced_idea_agent.py     (namespace AdvancedAgent)
    - vectorize_mcp_servers.py   (namespace Vectorize)
    - search_chroma.py           (namespace SearchChroma)
    - explore_chroma.py          (namespace ExploreChroma)

  External services (the DeepSeek chat model, Tavily web search, Wikipedia,
  the Chroma vector database, the filesystem) are modelled as explicit
  parameters: an external call's outcome is a value of type
  `Except String α` (an exception carrying its message, or a result).
  Python functions that may propagate an exception are embedded in the
  `Except String` monad; total Python functions are plain Lean functions.
-/
import Mathlib

set_option maxRecDepth 4000
set_option linter.unusedVariables false

/-! ## Python-semantics helpers -/

/-- Python truthiness of `os.getenv(...)`: `None` and the empty string are
falsy, every other string is truthy. -/
def pyTruthy : Option String → Bool
  | none => false
  | some s => !s.isEmpty

/-- Lowercasing of a single character as Python `str.lower` does it, for the
alphabets this repository uses: ASCII `A`-`Z` and Cyrillic `А`-`Я`, `Ё`. -/
def pyCharLower (c : Char) : Char :=
  if 65 ≤ c.toNat && c.toNat ≤ 90 then Char.ofNat (c.toNat + 32)
  else if 0x410 ≤ c.toNat && c.toNat ≤ 0x42F then Char.ofNat (c.toNat + 32)
  else if c.toNat = 0x401 then Char.ofNat 0x451
  else c

/-- Python `str.lower` (restricted to the alphabets used in the sources). -/
def pyLower (s : String) : String := String.mk (s.data.map pyCharLower)

/-- Contiguous-sublist test on character lists, used to model Python's
`needle in haystack` on strings. -/
def listContainsSub : List Char → List Char → Bool
  | [], needle => needle.isEmpty
  | c :: t, needle => needle.isPrefixOf (c :: t) || listContainsSub t needle

/-- Python's substring operator `needle in hay`. -/
def pyIn (needle hay : String) : Bool := listContainsSub hay.data needle.data

/-- Decimal digit string to value, for `pyInt`. -/
def digitsVal (cs : List Char) : Option Nat :=
  if cs.isEmpty then none
  else if cs.all Char.isDigit then
    some (cs.foldl (fun acc c => acc * 10 + (c.toNat - 48)) 0)
  else none

/-- Model of Python `int(s)` on decimal literals: surrounding whitespace is
stripped, an optional sign precedes the digits, anything else raises
`ValueError`. -/
def pyInt (s : String) : Except String Int :=
  let core : List Char → Option Int := fun cs =>
    match cs with
    | '+' :: rest => (digitsVal rest).map Int.ofNat
    | '-' :: rest => (digitsVal rest).map (fun n => -(Int.ofNat n))
    | _ => (digitsVal cs).map Int.ofNat
  match core s.trim.data with
  | some v => Except.ok v
  | none => Except.error ("invalid literal for int() with base 10: " ++ s)

/-! ## Python dictionaries

A Python `dict` with string keys is modelled as an association list in
insertion order; inserting an existing key updates it in place, inserting a
new key appends it, exactly as CPython dictionaries behave. -/

/-- Association-list model of a Python dict with string keys. -/
abbrev Dict (V : Type) := List (String × V)

/-- Python `d[k] = v`. -/
def dictInsert {V : Type} (d : Dict V) (k : String) (v : V) : Dict V :=
  match d with
  | [] => [(k, v)]
  | (k₁, v₁) :: t => if k₁ = k then (k, v) :: t else (k₁, v₁) :: dictInsert t k v

/-- The keys of a dict, in order. -/
def keys {V : Type} (d : Dict V) : List String := d.map Prod.fst

/-- Python `d.get(k)` / `d[k]` lookup. -/
def dictGet? {V : Type} (d : Dict V) (k : String) : Option V :=
  (d.find? (fun p => p.1 == k)).map Prod.snd

/-! ## vectorize_mcp_servers.py -/

namespace Vectorize

/-- One entry of the `mcp-servers.json` catalog.  Fields that Python reads
with `server.get(key, default)` are optional here. -/
structure MCPServer where
  qualifiedName : Option String
  displayName : Option String
  description : Option String
  homepage : Option String
  useCount : Option Int
  createdAt : Option String
deriving DecidableEq, Inhabited

/-- Metadata attached to a vector-store document by
`create_documents_from_servers`. -/
structure DocMetadata where
  id : Nat
  qualifiedName : String
  displayName : String
  description : String
  homepage : String
  useCount : Int
  createdAt : String
deriving DecidableEq, Inhabited

/-- A LangChain `Document`: page content plus metadata. -/
structure Document where
  page_content : String
  metadata : DocMetadata
deriving DecidableEq, Inhabited

/-- The f-string page content built for each server
(`create_documents_from_servers`, the `content` variable). -/
def serverContent (s : MCPServer) : String :=
  "\n        Name: " ++ s.displayName.getD "" ++
  "\n        Qualified Name: " ++ s.qualifiedName.getD "" ++
  "\n        Description: " ++ s.description.getD "" ++
  "\n        Homepage: " ++ s.homepage.getD "" ++
  "\n        Use Count: " ++ toString (s.useCount.getD 0) ++
  "\n        Created At: " ++ s.createdAt.getD "" ++
  "\n        "

/-- The `Document` built for the server at index `i` of the catalog. -/
def mkDocument (i : Nat) (s : MCPServer) : Document :=
  { page_content := serverContent s
    metadata :=
      { id := i
        qualifiedName := s.qualifiedName.getD ""
        displayName := s.displayName.getD ""
        description := s.description.getD ""
        homepage := s.homepage.getD ""
        useCount := s.useCount.getD 0
        createdAt := s.createdAt.getD "" } }

/-- The `for i, server in enumerate(servers)` loop of
`create_documents_from_servers`, with the running index made explicit. -/
def docsFrom (i : Nat) : List MCPServer → List Document
  | [] => []
  | s :: rest => mkDocument i s :: docsFrom (i + 1) rest

/-- `create_documents_from_servers`: convert the catalog entries, in order,
into `Document`s with attached metadata. -/
def create_documents_from_servers (servers : List MCPServer) : List Document :=
  docsFrom 0 servers

/-- `load_mcp_servers`: read and parse the JSON file (the `open`/`json.load`
outcome is the `readJson` parameter) and take its `servers` key.  No handler
surrounds any of this in the source, so a failure propagates. -/
def load_mcp_servers (readJson : Except String (Dict (List MCPServer))) :
    Except String (List MCPServer) :=
  match readJson with
  | Except.error e => Except.error e
  | Except.ok data =>
    match dictGet? data "servers" with
    | some s => Except.ok s
    | none => Except.error "KeyError: servers"

/-- Model of the third-party LangChain/Chroma retriever call
(`as_retriever(search_kwargs=..).get_relevant_documents`): it returns the `k`
documents most similar to the query.  The similarity ordering lives in the
SDK; only the contract that at most `k` documents come back is modelled, by
returning a prefix of the store. -/
def retrieverGet (store : List Document) (k : Nat) : List Document :=
  store.take k

/-- `query_vector_store`: query the vector store for `k` similar documents. -/
def query_vector_store (store : List Document) (query : String) (k : Nat) :
    List Document :=
  retrieverGet store k

/-- `query_vector_store` with its Python default argument `k=5`. -/
def query_vector_store_default (store : List Document) (query : String) :
    List Document :=
  query_vector_store store query 5

end Vectorize

/-! ## search_chroma.py -/

namespace SearchChroma

/-- One record stored in the Chroma collection: an id, the embedded document
text, and the metadata attached at ingestion time. -/
structure ChromaEntry where
  id : String
  document : String
  metadata : Vectorize.DocMetadata
deriving DecidableEq, Inhabited

/-- Model of the third-party chromadb `collection.query(query_texts=[q],
n_results=n)` call: it returns the at most `n` entries nearest to the query.
The nearest-neighbour ordering lives in the SDK; only the contract that at
most `n` entries come back is modelled, by returning a prefix of the
collection. -/
def collectionQuery (entries : List ChromaEntry) (queryText : String) (n : Nat) :
    List ChromaEntry :=
  entries.take n

/-- One printed result block of `search_collection` (the fields it reads from
the metadata with `metadata.get(...)`). -/
structure ResultBlock where
  name : String
  qualifiedName : String
  description : String
  homepage : String
  useCount : Int
deriving DecidableEq, Inhabited

/-- Format one query hit the way the `for` loop of `search_collection`
prints it. -/
def formatResult (e : ChromaEntry) : ResultBlock :=
  { name := e.metadata.displayName
    qualifiedName := e.metadata.qualifiedName
    description := e.metadata.description
    homepage := e.metadata.homepage
    useCount := e.metadata.useCount }

/-- `search_collection` of search_chroma.py.  Opening the client and fetching
the collection are external calls whose combined outcome is the `db`
parameter; no `try` surrounds them in the source, so a failure propagates out
of the function.  On success the query results are printed one block each. -/
def search_collection (db : Except String (List ChromaEntry)) (query_text : String)
    (n_results : Int) : Except String (List ResultBlock) :=
  match db with
  | Except.error e => Except.error e
  | Except.ok entries =>
    Except.ok ((collectionQuery entries query_text n_results.toNat).map formatResult)

/-- `search_collection` with its Python default argument `n_results=5`. -/
def search_collection_default (db : Except String (List ChromaEntry))
    (query_text : String) : Except String (List ResultBlock) :=
  search_collection db query_text 5

/-- Outcome of the script's `__main__` block. -/
inductive MainOutcome where
  | usageExit (printed : String) (code : Nat)
  | searched (query : String) (k : Int) (results : List ResultBlock)
deriving DecidableEq

/-- The `__main__` block of search_chroma.py: with fewer than two argv
entries it prints the usage line and exits with status 1, never touching the
database; otherwise the query is `argv[1]` and the result count is
`int(argv[2])` when given, else `5`. -/
def search_chroma_main (db : Except String (List ChromaEntry)) (argv : List String) :
    Except String MainOutcome :=
  if argv.length < 2 then
    Except.ok (MainOutcome.usageExit
      "Usage: python search_chroma.py \"your search query\" [number_of_results]" 1)
  else
    let query := argv.getD 1 ""
    match (if argv.length > 2 then pyInt (argv.getD 2 "") else Except.ok 5) with
    | Except.error e => Except.error e
    | Except.ok n_results =>
      match search_collection db query n_results with
      | Except.error e => Except.error e
      | Except.ok results => Except.ok (MainOutcome.searched query n_results results)

end SearchChroma

/-! ## explore_chroma.py -/

namespace ExploreChroma

/-- One printed result block of explore_chroma's `search_collection`: the id,
the metadata, and the first 200 characters of the document. -/
structure ExploreBlock where
  id : String
  metadata : Vectorize.DocMetadata
  docPrefix : String
deriving DecidableEq, Inhabited

/-- `search_collection` of explore_chroma.py: the collection object is already
in hand (obtained in `main`); the query results are printed one block each. -/
def search_collection (collection : List SearchChroma.ChromaEntry)
    (query_text : String) (n_results : Int) : List ExploreBlock :=
  (SearchChroma.collectionQuery collection query_text n_results.toNat).map
    (fun e => { id := e.id, metadata := e.metadata
                docPrefix := String.mk (e.document.data.take 200) })

/-- `search_collection` with its Python default argument `n_results=5`. -/
def search_collection_default (collection : List SearchChroma.ChromaEntry)
    (query_text : String) : List ExploreBlock :=
  search_collection collection query_text 5

end ExploreChroma

/-! ## idea_agent.py -/

namespace IdeaAgent

/-- The `Task` pydantic model of idea_agent.py (no category field in this
variant). -/
structure Task where
  name : String
  description : String
  tools_needed : List String
  estimated_complexity : String
deriving DecidableEq, Inhabited

/-- The `DecomposedIdea` pydantic model of idea_agent.py. -/
structure DecomposedIdea where
  original_idea : String
  summary : String
  tasks : List Task
  implementation_plan : String
deriving DecidableEq, Inhabited

/-- A Python value appearing in the dict returned by `decompose_idea`:
a string, a list of strings, or the serialized task list (kept as `Task`
records; `parsed_result.dict()` serializes each task to a dict with exactly
the `Task` fields). -/
inductive PyVal where
  | str (s : String)
  | strs (l : List String)
  | tasks (l : List Task)
deriving DecidableEq

/-- `parsed_result.dict()`: the pydantic serialization of a `DecomposedIdea`,
a dict with exactly the four model fields as keys. -/
def DecomposedIdea.toDict (d : DecomposedIdea) : Dict PyVal :=
  [("original_idea", PyVal.str d.original_idea),
   ("summary", PyVal.str d.summary),
   ("tasks", PyVal.tasks d.tasks),
   ("implementation_plan", PyVal.str d.implementation_plan)]

/-- The configuration with which both scripts build their `ChatDeepSeek`
model (the floating-point temperature is outside the model). -/
structure ChatDeepSeekConfig where
  model : String
  max_tokens : Nat
deriving DecidableEq, Inhabited

/-- The `ValueError` message raised when `DEEPSEEK_API_KEY` is missing. -/
def keyErrorMsg : String :=
  "DEEPSEEK_API_KEY не найден в переменных окружения. Пожалуйста, добавьте его в .env файл."

/-- Module load of idea_agent.py: the `if not os.getenv("DEEPSEEK_API_KEY")`
check runs first and raises `ValueError` on a missing or empty key; only
when it passes is the `ChatDeepSeek` model constructed further down the
module. -/
def moduleLoad (env : Option String) : Except String ChatDeepSeekConfig :=
  if pyTruthy env then Except.ok { model := "deepseek-chat", max_tokens := 4000 }
  else Except.error keyErrorMsg

/-- `decompose_idea`: invoke the decomposition chain (outcome
`chainResult`), then try to parse the model text into a `DecomposedIdea`
(outcome given by `parse`).  The whole body is wrapped in `try`/`except`, and
the parse in an inner `try`/`except`, so the function always returns a dict:
the parsed record, `{"raw_response": text}` on a parse failure, or
`{"error": message}` when the chain call itself raised. -/
def decompose_idea (chainResult : Except String String)
    (parse : String → Except String DecomposedIdea) : Dict PyVal :=
  match chainResult with
  | Except.error e => [("error", PyVal.str e)]
  | Except.ok result =>
    match parse result with
    | Except.ok parsed => parsed.toDict
    | Except.error _ => [("raw_response", PyVal.str result)]

end IdeaAgent

/-! ## advanced_idea_agent.py -/

namespace AdvancedAgent

/-- The `Task` pydantic model of advanced_idea_agent.py (with a category). -/
structure Task where
  name : String
  description : String
  tools_needed : List String
  estimated_complexity : String
  category : String
deriving DecidableEq, Inhabited

/-- The `DecomposedIdea` pydantic model of advanced_idea_agent.py. -/
structure DecomposedIdea where
  original_idea : String
  summary : String
  tasks : List Task
  implementation_plan : String
deriving DecidableEq, Inhabited

/-- The value stored per task by `research_tasks`:
`{"web_search": ..., "wikipedia": ...}`. -/
structure ResearchInfo where
  web_search : String
  wikipedia : String
deriving DecidableEq, Inhabited

/-- The `AgentState` TypedDict (plus the `code_snippets` channel, which the
TypedDict declaration omits but `generate_code_for_tasks` writes and
`create_final_report` reads). -/
structure AgentState where
  idea : String
  decomposed_idea : Option DecomposedIdea
  research_results : Dict ResearchInfo
  code_snippets : Dict String
  current_task : Option String
  final_report : Option String
deriving DecidableEq, Inhabited

/-- A partial state update as returned by a graph node: each node returns a
dict naming only the state fields it writes, which LangGraph merges into the
state. -/
inductive FieldUpd where
  | decomposed (v : Option DecomposedIdea)
  | research (v : Dict ResearchInfo)
  | code (v : Dict String)
  | report (v : Option String)
deriving DecidableEq

/-- Merge one field update into the state. -/
def applyUpd (st : AgentState) : FieldUpd → AgentState
  | FieldUpd.decomposed v => { st with decomposed_idea := v }
  | FieldUpd.research v => { st with research_results := v }
  | FieldUpd.code v => { st with code_snippets := v }
  | FieldUpd.report v => { st with final_report := v }

/-- Merge a node's update dict into the state. -/
def applyUpds (st : AgentState) (us : List FieldUpd) : AgentState :=
  us.foldl applyUpd st

/-- The `search_web` tool: the Tavily call's outcome is `invokeResult`; the
`try`/`except` converts a failure into an error string. -/
def search_web (invokeResult : Except String String) : String :=
  match invokeResult with
  | Except.ok r => r
  | Except.error e => "Ошибка при поиске: " ++ e

/-- The `search_wikipedia` tool: the Wikipedia call's outcome is
`invokeResult`; the `try`/`except` converts a failure into an error string. -/
def search_wikipedia (invokeResult : Except String String) : String :=
  match invokeResult with
  | Except.ok r => r
  | Except.error e => "Ошибка при поиске в Википедии: " ++ e

/-- The `generate_code_snippet` tool: it invokes the code chain and returns
its text; there is no handler here, so a failure propagates to the caller. -/
def generate_code_snippet (chainResult : Except String String) :
    Except String String :=
  chainResult

/-- `decompose_idea_step`: render the prompt from the idea, call the model
(abstracted as `modelRespond`, a function of the idea), then `try` to parse.
On success the parsed record is returned under `decomposed_idea`; on a parse
failure the fallback dict with summary "Ошибка парсинга", an EMPTY task list
and the raw model text as plan is returned instead. -/
def decompose_idea_step (modelRespond : String → String)
    (parse : String → Except String DecomposedIdea) (st : AgentState) :
    List FieldUpd :=
  let idea := st.idea
  let result_text := modelRespond idea
  match parse result_text with
  | Except.ok decomposed => [FieldUpd.decomposed (some decomposed)]
  | Except.error _ =>
    [FieldUpd.decomposed (some
      { original_idea := idea, summary := "Ошибка парсинга",
        tasks := [], implementation_plan := result_text })]

/-- The category filter of `research_tasks`:
`"сбор данных" in task.category.lower() or "поиск" in task.category.lower()`. -/
def researchCond (t : Task) : Bool :=
  pyIn "сбор данных" (pyLower t.category) || pyIn "поиск" (pyLower t.category)

/-- The category filter of `generate_code_for_tasks`:
`"разработка" in task.category.lower() or "код" in task.category.lower()`. -/
def codeCond (t : Task) : Bool :=
  pyIn "разработка" (pyLower t.category) || pyIn "код" (pyLower t.category)

/-- The `for task in decomposed_idea.tasks` accumulation pattern shared by
`research_tasks`: tasks passing `cond` get an entry under their name. -/
def condFold {V : Type} (cond : Task → Bool) (val : Task → V) (acc : Dict V) :
    List Task → Dict V
  | [] => acc
  | t :: rest =>
    if cond t then condFold cond val (dictInsert acc t.name (val t)) rest
    else condFold cond val acc rest

/-- The same accumulation loop when the per-task value comes from an external
call that may raise (`generate_code_for_tasks`): a failure aborts the loop
and propagates. -/
def condFoldM {V : Type} (cond : Task → Bool) (val : Task → Except String V)
    (acc : Dict V) : List Task → Except String (Dict V)
  | [] => Except.ok acc
  | t :: rest =>
    if cond t then
      match val t with
      | Except.error e => Except.error e
      | Except.ok v => condFoldM cond val (dictInsert acc t.name v) rest
    else condFoldM cond val acc rest

/-- The `research_results` dict built by `research_tasks` for a decomposed
idea: for every task whose category matches, a web search on
`f"{summary} {task.name}"` and a Wikipedia search on the task name (both
through the error-converting tools). -/
def researchDict (web wiki : String → Except String String) (d : DecomposedIdea) :
    Dict ResearchInfo :=
  condFold researchCond
    (fun task =>
      { web_search := search_web (web (d.summary ++ " " ++ task.name))
        wikipedia := search_wikipedia (wiki task.name) })
    [] d.tasks

/-- `research_tasks`: with no decomposed idea the node returns an empty
`research_results`; otherwise it researches the matching tasks. -/
def research_tasks (web wiki : String → Except String String) (st : AgentState) :
    List FieldUpd :=
  match st.decomposed_idea with
  | none => [FieldUpd.research []]
  | some d => [FieldUpd.research (researchDict web wiki d)]

/-- The `code_snippets` dict built by `generate_code_for_tasks`: for every
task whose category matches, `generate_code_snippet` is called on
`f"{summary} - {task.description}"`; its failure propagates. -/
def codeDict (gen : String → Except String String) (d : DecomposedIdea) :
    Except String (Dict String) :=
  condFoldM codeCond
    (fun task => generate_code_snippet (gen (d.summary ++ " - " ++ task.description)))
    [] d.tasks

/-- `generate_code_for_tasks`: with no decomposed idea the node returns an
empty `code_snippets`; otherwise it generates code for the matching tasks. -/
def generate_code_for_tasks (gen : String → Except String String)
    (st : AgentState) : Except String (List FieldUpd) :=
  match st.decomposed_idea with
  | none => Except.ok [FieldUpd.code []]
  | some d => (codeDict gen d).map (fun cs => [FieldUpd.code cs])

/-- The per-task section of the final report (the loop body of
`create_final_report`, task numbered from 1). -/
def taskSection (research_results : Dict ResearchInfo) (code_snippets : Dict String)
    (i : Nat) (task : Task) : String :=
  let base :=
    "\n### " ++ toString i ++ ". " ++ task.name ++
    " (Сложность: " ++ task.estimated_complexity ++
    ", Категория: " ++ task.category ++ ")\n**Описание:** " ++ task.description ++
    "\n**Необходимые инструменты:** " ++ String.intercalate ", " task.tools_needed ++
    "\n"
  let withResearch :=
    match dictGet? research_results task.name with
    | some info =>
      base ++ "\n**Результаты исследования:**\n- Веб-поиск: " ++ info.web_search ++
      "\n- Википедия: " ++ info.wikipedia ++ "\n"
    | none => base
  match dictGet? code_snippets task.name with
  | some code =>
    withResearch ++ "\n**Сгенерированный код:**\n```python\n" ++ code ++ "\n```\n"
  | none => withResearch

/-- The task sections in order, numbered from 1 (`enumerate(tasks, 1)`). -/
def taskSections (research_results : Dict ResearchInfo) (code_snippets : Dict String)
    (i : Nat) : List Task → String
  | [] => ""
  | t :: rest =>
    taskSection research_results code_snippets i t ++
    taskSections research_results code_snippets (i + 1) rest

/-- `create_final_report`: with no decomposed idea the report is the fixed
failure line; otherwise the markdown report is assembled from the decomposed
idea, the research results and the code snippets. -/
def create_final_report (st : AgentState) : List FieldUpd :=
  match st.decomposed_idea with
  | none => [FieldUpd.report (some "Не удалось декомпозировать идею.")]
  | some d =>
    let header :=
      "\n# Отчет по идее: " ++ d.summary ++
      "\n\n## Исходная идея\n" ++ d.original_idea ++
      "\n\n## Краткое описание\n" ++ d.summary ++
      "\n\n## Задачи\n"
    let report :=
      header ++ taskSections st.research_results st.code_snippets 1 d.tasks ++
      "\n## План реализации\n" ++ d.implementation_plan ++ "\n"
    [FieldUpd.report (some report)]

/-- Module load of advanced_idea_agent.py: the same `DEEPSEEK_API_KEY` check
as idea_agent.py runs before the `ChatDeepSeek` model is constructed. -/
def moduleLoad (env : Option String) : Except String IdeaAgent.ChatDeepSeekConfig :=
  if pyTruthy env then Except.ok { model := "deepseek-chat", max_tokens := 4000 }
  else Except.error IdeaAgent.keyErrorMsg

/-- Result of `process_idea`: either the final pipeline state or the
`{"error": message}` dict. -/
inductive ProcessResult where
  | state (st : AgentState)
  | errorDict (msg : String)
deriving DecidableEq

/-- `process_idea`: run the compiled graph (outcome `invokeResult`); the
`try`/`except` converts any failure into `{"error": str(e)}`. -/
def process_idea (invokeResult : Except String AgentState) : ProcessResult :=
  match invokeResult with
  | Except.ok st => ProcessResult.state st
  | Except.error e => ProcessResult.errorDict e

/-! ### The state graph -/

/-- The nodes of the `workflow` state graph, plus the `START` entry point. -/
inductive Node where
  | START
  | decompose_idea
  | research_tasks
  | generate_code
  | create_report
deriving DecidableEq, BEq, Inhabited

/-- The edges added with `workflow.add_edge`, verbatim from the source; the
source adds no conditional edge (`add_conditional_edges` is never called). -/
def edges : List (Node × Node) :=
  [(Node.START, Node.decompose_idea),
   (Node.decompose_idea, Node.research_tasks),
   (Node.research_tasks, Node.generate_code),
   (Node.generate_code, Node.create_report)]

/-- The successor of a node under the edge relation (first matching edge). -/
def nextNode (n : Node) : Option Node :=
  (edges.find? (fun e => e.1 == n)).map Prod.snd

/-- The sequence of nodes executed from `n`, following edges until a node
with no successor is reached (or the fuel runs out). -/
def execFrom (fuel : Nat) (n : Node) : List Node :=
  match fuel with
  | 0 => []
  | Nat.succ f =>
    match nextNode n with
    | none => []
    | some m => m :: execFrom f m

/-- All five nodes of the graph. -/
def allNodes : List Node :=
  [Node.START, Node.decompose_idea, Node.research_tasks,
   Node.generate_code, Node.create_report]

end AdvancedAgent

/-! ## Concrete inputs used by witnesses and counterexamples -/

/-- A concrete catalog entry with some fields absent (C3). -/
def sampleServer1 : Vectorize.MCPServer :=
  { qualifiedName := none, displayName := some "B", description := some "db"
    homepage := some "hb", useCount := none, createdAt := some "2024-01-01" }

/-- A concrete two-entry catalog (C3). -/
def sampleServers : List Vectorize.MCPServer :=
  [{ qualifiedName := some "a/b", displayName := some "A", description := none
     homepage := none, useCount := some 7, createdAt := none },
   sampleServer1]

/-- A concrete collection entry (C5). -/
def sampleEntry : SearchChroma.ChromaEntry :=
  { id := "1", document := "doc text", metadata := default }

/-- The fallback record `decompose_idea_step` builds when parsing fails, at
the C4 counterexample's inputs. -/
def c4FallbackRecord : AdvancedAgent.DecomposedIdea :=
  { original_idea := "Идея", summary := "Ошибка парсинга", tasks := []
    implementation_plan := "no json here" }

/-- A concrete parsed record (C4). -/
def c4Parsed : AdvancedAgent.DecomposedIdea :=
  { original_idea := "Идея", summary := "Сводка"
    tasks := [{ name := "t", description := "d", tools_needed := []
                estimated_complexity := "низкая", category := "разработка" }]
    implementation_plan := "план" }

/-- A concrete initial state (C4). -/
def c4State : AdvancedAgent.AgentState :=
  { idea := "Идея", decomposed_idea := none, research_results := []
    code_snippets := [], current_task := none, final_report := none }

/-- A data-collection task, research category (C9). -/
def c9Task1 : AdvancedAgent.Task :=
  { name := "collect", description := "d1", tools_needed := []
    estimated_complexity := "низкая", category := "Сбор данных" }

/-- An analysis task, no matching category (C9). -/
def c9Task2 : AdvancedAgent.Task :=
  { name := "analyze", description := "d2", tools_needed := []
    estimated_complexity := "средняя", category := "анализ" }

/-- A development task, code category (C9). -/
def c9Task3 : AdvancedAgent.Task :=
  { name := "build", description := "d3", tools_needed := []
    estimated_complexity := "высокая", category := "Разработка" }

/-- A concrete decomposed idea with one task per kind (C9). -/
def c9Idea : AdvancedAgent.DecomposedIdea :=
  { original_idea := "идея", summary := "сводка"
    tasks := [c9Task1, c9Task2, c9Task3], implementation_plan := "план" }

/-! ## Theorems for the claims -/

/-! ### Helper lemmas -/

theorem mem_keys_dictInsert {V : Type} (d : Dict V) (k k' : String) (v : V) :
    k' ∈ keys (dictInsert d k v) ↔ k' = k ∨ k' ∈ keys d := by
  induction d with
  | nil => simp [dictInsert, keys]
  | cons p t ih =>
    obtain ⟨k₁, v₁⟩ := p
    by_cases h : k₁ = k
    · subst h
      simp [dictInsert, keys]
    · simp [dictInsert, h, keys] at ih ⊢
      tauto

theorem docsFrom_length (j : Nat) (servers : List Vectorize.MCPServer) :
    (Vectorize.docsFrom j servers).length = servers.length := by
  induction servers generalizing j with
  | nil => rfl
  | cons s rest ih => simp [Vectorize.docsFrom, ih]

theorem docsFrom_get? (servers : List Vectorize.MCPServer) (j i : Nat) :
    (Vectorize.docsFrom j servers).get? i =
      (servers.get? i).map (Vectorize.mkDocument (j + i)) := by
  induction servers generalizing j i with
  | nil => simp [Vectorize.docsFrom]
  | cons s rest ih =>
    cases i with
    | zero => simp [Vectorize.docsFrom]
    | succ n =>
      simp only [Vectorize.docsFrom, List.get?]
      rw [ih]
      have : j + 1 + n = j + (n + 1) := by omega
      rw [this]

/-- C1: the advanced idea agent's workflow is a four-node linear pipeline —
from `START` the compiled graph executes exactly `decompose_idea`,
`research_tasks`, `generate_code`, `create_report` in that order, each
exactly once; every node has at most one outgoing edge (no conditional
edge), and no node is reachable from itself (no retry, no cycle). -/
theorem c1_pipeline_is_linear :
    AdvancedAgent.execFrom 10 AdvancedAgent.Node.START =
      [AdvancedAgent.Node.decompose_idea, AdvancedAgent.Node.research_tasks,
       AdvancedAgent.Node.generate_code, AdvancedAgent.Node.create_report] ∧
    (∀ n : AdvancedAgent.Node, n ∈ AdvancedAgent.allNodes) ∧
    (AdvancedAgent.allNodes.all
      (fun n => decide
        ((AdvancedAgent.edges.filter (fun e => e.1 == n)).length ≤ 1)) = true) ∧
    (AdvancedAgent.allNodes.all
      (fun n => !((AdvancedAgent.execFrom 10 n).contains n)) = true) ∧
    ((AdvancedAgent.execFrom 10 AdvancedAgent.Node.START).count
       AdvancedAgent.Node.decompose_idea = 1) ∧
    ((AdvancedAgent.execFrom 10 AdvancedAgent.Node.START).count
       AdvancedAgent.Node.research_tasks = 1) ∧
    ((AdvancedAgent.execFrom 10 AdvancedAgent.Node.START).count
       AdvancedAgent.Node.generate_code = 1) ∧
    ((AdvancedAgent.execFrom 10 AdvancedAgent.Node.START).count
       AdvancedAgent.Node.create_report = 1) := by
  refine ⟨by decide, ?_, by decide, by decide, by decide, by decide, by decide, by decide⟩
  intro n
  cases n <;> simp [AdvancedAgent.allNodes]

/-- C3: `create_documents_from_servers` is a 1:1 conversion — it returns
exactly as many documents as catalog entries, and the `i`-th document carries
the `i`-th entry's fields in its metadata (empty string, or `0` for
`useCount`, when a field is absent), with the entry's index as `id`. -/
theorem c3_documents_one_to_one (servers : List Vectorize.MCPServer) (i : Nat) :
    (Vectorize.create_documents_from_servers servers).length = servers.length ∧
    (∀ s, servers.get? i = some s →
      (Vectorize.create_documents_from_servers servers).get? i =
        some { page_content := Vectorize.serverContent s
               metadata :=
                 { id := i
                   qualifiedName := s.qualifiedName.getD ""
                   displayName := s.displayName.getD ""
                   description := s.description.getD ""
                   homepage := s.homepage.getD ""
                   useCount := s.useCount.getD 0
                   createdAt := s.createdAt.getD "" } }) := by
  constructor
  · exact docsFrom_length 0 servers
  · intro s hs
    rw [Vectorize.create_documents_from_servers, docsFrom_get?, hs, Nat.zero_add]
    rfl

/-- Witness for C3 at a concrete two-entry catalog and index 1. -/
theorem c3_documents_one_to_one_witness :
    (Vectorize.create_documents_from_servers sampleServers).get? 1 =
      some { page_content := Vectorize.serverContent sampleServer1
             metadata :=
               { id := 1
                 qualifiedName := sampleServer1.qualifiedName.getD ""
                 displayName := sampleServer1.displayName.getD ""
                 description := sampleServer1.description.getD ""
                 homepage := sampleServer1.homepage.getD ""
                 useCount := sampleServer1.useCount.getD 0
                 createdAt := sampleServer1.createdAt.getD "" } } :=
  (c3_documents_one_to_one sampleServers 1).2 sampleServer1 rfl

/-- C5: a vector-store search returns at most the requested number of
results — for `search_collection` of search_chroma.py, `query_vector_store`
of vectorize_mcp_servers.py, and `search_collection` of explore_chroma.py —
and the result count defaults to 5 when not supplied. -/
theorem c5_at_most_k_results (entries : List SearchChroma.ChromaEntry)
    (store : List Vectorize.Document) (q : String) (k : Int) (kn : Nat)
    (blocks : List SearchChroma.ResultBlock) :
    (SearchChroma.search_collection (Except.ok entries) q k = Except.ok blocks →
      0 ≤ k → (blocks.length : Int) ≤ k) ∧
    ((Vectorize.query_vector_store store q kn).length ≤ kn) ∧
    ((ExploreChroma.search_collection entries q k).length ≤ k.toNat) ∧
    (SearchChroma.search_collection_default (Except.ok entries) q =
      SearchChroma.search_collection (Except.ok entries) q 5) ∧
    (Vectorize.query_vector_store_default store q =
      Vectorize.query_vector_store store q 5) ∧
    (ExploreChroma.search_collection_default entries q =
      ExploreChroma.search_collection entries q 5) := by
  refine ⟨?_, ?_, ?_, rfl, rfl, rfl⟩
  · intro h hk
    have hb : blocks =
        (SearchChroma.collectionQuery entries q k.toNat).map SearchChroma.formatResult := by
      simpa [SearchChroma.search_collection] using h.symm
    have hlen : blocks.length ≤ k.toNat := by
      rw [hb]
      simp [SearchChroma.collectionQuery]
    omega
  · simp [Vectorize.query_vector_store, Vectorize.retrieverGet]
  · simp [ExploreChroma.search_collection, SearchChroma.collectionQuery]

/-- Witness for C5 at a one-entry collection and requested count 5. -/
theorem c5_at_most_k_results_witness :
    (([SearchChroma.formatResult sampleEntry] :
       List SearchChroma.ResultBlock).length : Int) ≤ 5 :=
  (c5_at_most_k_results [sampleEntry] [] "github" 5 0
    [SearchChroma.formatResult sampleEntry]).1 rfl (by decide)

/-- C7: both idea-agent scripts check `DEEPSEEK_API_KEY` at module load,
before the model is built: with the key absent or empty the load raises the
`ValueError`, and with a non-empty key the check passes and the model
configuration is produced. -/
theorem c7_api_key_required (env : Option String) :
    ((env = none ∨ env = some "") →
      IdeaAgent.moduleLoad env = Except.error IdeaAgent.keyErrorMsg ∧
      AdvancedAgent.moduleLoad env = Except.error IdeaAgent.keyErrorMsg) ∧
    (∀ s, env = some s → s ≠ "" →
      IdeaAgent.moduleLoad env =
        Except.ok { model := "deepseek-chat", max_tokens := 4000 } ∧
      AdvancedAgent.moduleLoad env =
        Except.ok { model := "deepseek-chat", max_tokens := 4000 }) := by
  constructor
  · rintro (rfl | rfl) <;> exact ⟨rfl, rfl⟩
  · rintro s rfl hs
    have hse : s.isEmpty = false := by
      cases he : s.isEmpty
      · rfl
      · exact absurd ((String.isEmpty_iff s).mp he) hs
    simp [IdeaAgent.moduleLoad, AdvancedAgent.moduleLoad, pyTruthy, hse]

/-- C2 counterexample: `search_collection` of search_chroma.py wraps nothing —
when the database open / collection fetch raises (here: the collection does
not exist), the exception propagates out of the function unchanged instead of
being converted into a returned or printed string. -/
theorem c2_counterexample :
    SearchChroma.search_collection
      (Except.error "Collection mcp_servers does not exist.") "github" 5 =
      Except.error "Collection mcp_servers does not exist." := rfl

/-- C2 (amended): the external calls of the two idea-agent scripts are
wrapped in broad handlers that convert any failure into a human-readable
string (`decompose_idea`, `search_web`, `search_wikipedia`, `process_idea`);
but the vector-store scripts are not — `search_collection` of
search_chroma.py and `load_mcp_servers` of vectorize_mcp_servers.py propagate
any failure of their external calls unhandled. -/
theorem c2_amended_handler_coverage (e q : String) (k : Int)
    (parse : String → Except String IdeaAgent.DecomposedIdea) :
    (IdeaAgent.decompose_idea (Except.error e) parse =
      [("error", IdeaAgent.PyVal.str e)]) ∧
    (AdvancedAgent.search_web (Except.error e) = "Ошибка при поиске: " ++ e) ∧
    (AdvancedAgent.search_wikipedia (Except.error e) =
      "Ошибка при поиске в Википедии: " ++ e) ∧
    (AdvancedAgent.process_idea (Except.error e) =
      AdvancedAgent.ProcessResult.errorDict e) ∧
    (SearchChroma.search_collection (Except.error e) q k = Except.error e) ∧
    (Vectorize.load_mcp_servers (Except.error e) = Except.error e) :=
  ⟨rfl, rfl, rfl, rfl, rfl, rfl⟩

/-- C4 counterexample: on a parse failure `decompose_idea_step` yields a
decomposed-idea record whose task list is EMPTY, contradicting the claim
that the step never yields a record with an empty tasks list. -/
theorem c4_counterexample :
    AdvancedAgent.decompose_idea_step (fun _ => "no json here")
      (fun _ => Except.error "Failed to parse DecomposedIdea")
      { idea := "Идея", decomposed_idea := none, research_results := []
        code_snippets := [], current_task := none, final_report := none } =
      [AdvancedAgent.FieldUpd.decomposed (some c4FallbackRecord)] ∧
    c4FallbackRecord.tasks = [] :=
  ⟨rfl, rfl⟩

/-- C4 (amended): every run of `decompose_idea_step` yields exactly one
update holding a well-formed decomposed-idea record — the parsed record when
parsing succeeds, and otherwise the fallback record whose summary is
"Ошибка парсинга", whose plan is the raw model text and whose task list is
empty; the task list is therefore not guaranteed non-empty. -/
theorem c4_amended_wellformed_record (modelRespond : String → String)
    (parse : String → Except String AdvancedAgent.DecomposedIdea)
    (st : AdvancedAgent.AgentState) :
    (∀ r, parse (modelRespond st.idea) = Except.ok r →
      AdvancedAgent.decompose_idea_step modelRespond parse st =
        [AdvancedAgent.FieldUpd.decomposed (some r)]) ∧
    (∀ e, parse (modelRespond st.idea) = Except.error e →
      AdvancedAgent.decompose_idea_step modelRespond parse st =
        [AdvancedAgent.FieldUpd.decomposed (some
          { original_idea := st.idea, summary := "Ошибка парсинга", tasks := []
            implementation_plan := modelRespond st.idea })]) ∧
    (∃ d, AdvancedAgent.decompose_idea_step modelRespond parse st =
      [AdvancedAgent.FieldUpd.decomposed (some d)]) := by
  refine ⟨?_, ?_, ?_⟩
  · intro r hr
    simp [AdvancedAgent.decompose_idea_step, hr]
  · intro e he
    simp [AdvancedAgent.decompose_idea_step, he]
  · cases hp : parse (modelRespond st.idea) with
    | ok d => exact ⟨d, by simp [AdvancedAgent.decompose_idea_step, hp]⟩
    | error e =>
      exact ⟨{ original_idea := st.idea, summary := "Ошибка парсинга", tasks := []
               implementation_plan := modelRespond st.idea },
             by simp [AdvancedAgent.decompose_idea_step, hp]⟩

/-- Witness for C4 (amended) on a parse success and on a parse failure. -/
theorem c4_amended_wellformed_record_witness :
    (AdvancedAgent.decompose_idea_step (fun _ => "ответ")
        (fun _ => Except.ok c4Parsed) c4State =
      [AdvancedAgent.FieldUpd.decomposed (some c4Parsed)]) ∧
    (AdvancedAgent.decompose_idea_step (fun _ => "ответ")
        (fun _ => Except.error "boom") c4State =
      [AdvancedAgent.FieldUpd.decomposed (some
        { original_idea := "Идея", summary := "Ошибка парсинга", tasks := []
          implementation_plan := "ответ" })]) :=
  ⟨(c4_amended_wellformed_record (fun _ => "ответ")
      (fun _ => Except.ok c4Parsed) c4State).1 c4Parsed rfl,
   (c4_amended_wellformed_record (fun _ => "ответ")
      (fun _ => Except.error "boom") c4State).2.1 "boom" rfl⟩

/-- C8: `decompose_idea` returns exactly one of three disjoint dict shapes —
the serialized record (whose keys are exactly the four model fields) when
call and parse succeed, the single-key `raw_response` dict holding the raw
model text when only parsing fails, and the single-key `error` dict holding
the exception message when the chain call fails. -/
theorem c8_three_result_shapes (chainResult : Except String String)
    (parse : String → Except String IdeaAgent.DecomposedIdea) :
    (∃ r p, chainResult = Except.ok r ∧ parse r = Except.ok p ∧
      IdeaAgent.decompose_idea chainResult parse =
        IdeaAgent.DecomposedIdea.toDict p ∧
      keys (IdeaAgent.DecomposedIdea.toDict p) =
        ["original_idea", "summary", "tasks", "implementation_plan"]) ∨
    (∃ r e, chainResult = Except.ok r ∧ parse r = Except.error e ∧
      IdeaAgent.decompose_idea chainResult parse =
        [("raw_response", IdeaAgent.PyVal.str r)]) ∨
    (∃ e, chainResult = Except.error e ∧
      IdeaAgent.decompose_idea chainResult parse =
        [("error", IdeaAgent.PyVal.str e)]) := by
  cases chainResult with
  | error e => exact Or.inr (Or.inr ⟨e, rfl, rfl⟩)
  | ok r =>
    cases hp : parse r with
    | ok p =>
      exact Or.inl ⟨r, p, rfl, hp, by simp [IdeaAgent.decompose_idea, hp], rfl⟩
    | error e =>
      exact Or.inr (Or.inl ⟨r, e, rfl, hp, by simp [IdeaAgent.decompose_idea, hp]⟩)

/-- C10: the search script's `__main__` block — with fewer than two argv
entries it prints the usage line and exits with code 1 without touching the
database (the outcome is the same for any `db`, failing or not); with a
query it searches with `int(argv[2])` results when a third argument is
given, else with the default 5. -/
theorem c10_main_argv_handling (db : Except String (List SearchChroma.ChromaEntry))
    (a p q n : String) (rest : List String) :
    (SearchChroma.search_chroma_main db [] =
      Except.ok (SearchChroma.MainOutcome.usageExit
        "Usage: python search_chroma.py \"your search query\" [number_of_results]" 1)) ∧
    (SearchChroma.search_chroma_main db [a] =
      Except.ok (SearchChroma.MainOutcome.usageExit
        "Usage: python search_chroma.py \"your search query\" [number_of_results]" 1)) ∧
    (SearchChroma.search_chroma_main db [p, q] =
      (SearchChroma.search_collection db q 5).map
        (SearchChroma.MainOutcome.searched q 5)) ∧
    (SearchChroma.search_chroma_main db (p :: q :: n :: rest) =
      (pyInt n).bind (fun k =>
        (SearchChroma.search_collection db q k).map
          (SearchChroma.MainOutcome.searched q k))) := by
  refine ⟨rfl, rfl, ?_, ?_⟩
  · cases hs : SearchChroma.search_collection db q 5 with
    | error e => simp [SearchChroma.search_chroma_main, hs, Except.map]
    | ok results => simp [SearchChroma.search_chroma_main, hs, Except.map]
  · cases hn : pyInt n with
    | error e =>
      simp [SearchChroma.search_chroma_main, hn, Except.bind]
    | ok k =>
      cases hs : SearchChroma.search_collection db q k with
      | error e =>
        simp [SearchChroma.search_chroma_main, hn, hs, Except.bind, Except.map]
      | ok results =>
        simp [SearchChroma.search_chroma_main, hn, hs, Except.bind, Except.map]

/-- C6: the three steps after decomposition never touch the
`decomposed_idea` component of the state — merging the update dict of
`research_tasks`, `generate_code_for_tasks` (whenever it returns at all) or
`create_final_report` into any state leaves `decomposed_idea` identical. -/
theorem c6_steps_preserve_decomposed_idea (web wiki gen : String → Except String String)
    (st : AdvancedAgent.AgentState) :
    ((AdvancedAgent.applyUpds st
        (AdvancedAgent.research_tasks web wiki st)).decomposed_idea =
      st.decomposed_idea) ∧
    ((AdvancedAgent.generate_code_for_tasks gen st).map
        (fun us => (AdvancedAgent.applyUpds st us).decomposed_idea) =
      (AdvancedAgent.generate_code_for_tasks gen st).map
        (fun _ => st.decomposed_idea)) ∧
    ((AdvancedAgent.applyUpds st
        (AdvancedAgent.create_final_report st)).decomposed_idea =
      st.decomposed_idea) := by
  refine ⟨?_, ?_, ?_⟩
  · cases h : st.decomposed_idea <;>
      simp [AdvancedAgent.research_tasks, h, AdvancedAgent.applyUpds,
        AdvancedAgent.applyUpd]
  · cases h : st.decomposed_idea with
    | none =>
      simp [AdvancedAgent.generate_code_for_tasks, h, Except.map,
        AdvancedAgent.applyUpds, AdvancedAgent.applyUpd]
    | some d =>
      cases hc : AdvancedAgent.codeDict gen d <;>
        simp [AdvancedAgent.generate_code_for_tasks, h, hc, Except.map,
          AdvancedAgent.applyUpds, AdvancedAgent.applyUpd]
  · cases h : st.decomposed_idea <;>
      simp [AdvancedAgent.create_final_report, h, AdvancedAgent.applyUpds,
        AdvancedAgent.applyUpd]

theorem mem_keys_condFold {V : Type} (cond : AdvancedAgent.Task → Bool)
    (val : AdvancedAgent.Task → V) (ts : List AdvancedAgent.Task) (acc : Dict V)
    (k : String) :
    k ∈ keys (AdvancedAgent.condFold cond val acc ts) ↔
      k ∈ keys acc ∨ k ∈ (ts.filter cond).map AdvancedAgent.Task.name := by
  induction ts generalizing acc with
  | nil => simp [AdvancedAgent.condFold]
  | cons t rest ih =>
    by_cases hc : cond t
    · rw [show AdvancedAgent.condFold cond val acc (t :: rest) =
          AdvancedAgent.condFold cond val (dictInsert acc t.name (val t)) rest by
        simp [AdvancedAgent.condFold, hc]]
      rw [ih]
      simp [mem_keys_dictInsert, List.filter_cons, hc]
      tauto
    · rw [show AdvancedAgent.condFold cond val acc (t :: rest) =
          AdvancedAgent.condFold cond val acc rest by
        simp [AdvancedAgent.condFold, hc]]
      rw [ih]
      simp [List.filter_cons, hc]

theorem mem_keys_condFoldM {V : Type} (cond : AdvancedAgent.Task → Bool)
    (val : AdvancedAgent.Task → Except String V) (k : String) :
    ∀ (ts : List AdvancedAgent.Task) (acc res : Dict V),
      AdvancedAgent.condFoldM cond val acc ts = Except.ok res →
      (k ∈ keys res ↔
        k ∈ keys acc ∨ k ∈ (ts.filter cond).map AdvancedAgent.Task.name) := by
  intro ts
  induction ts with
  | nil =>
    intro acc res h
    simp [AdvancedAgent.condFoldM] at h
    subst h
    simp
  | cons t rest ih =>
    intro acc res h
    by_cases hc : cond t
    · cases hv : val t with
      | error e => simp [AdvancedAgent.condFoldM, hc, hv] at h
      | ok v =>
        simp only [AdvancedAgent.condFoldM, hc, hv, if_true] at h
        rw [ih _ _ h]
        simp [mem_keys_dictInsert, List.filter_cons, hc]
        tauto
    · simp only [AdvancedAgent.condFoldM, hc, Bool.false_eq_true, if_false] at h
      rw [ih _ _ h]
      simp [List.filter_cons, hc]

/-- C9: the research and code-generation steps are selective on the task
category — `research_tasks` records results under exactly the names of the
tasks whose lowercased category contains "сбор данных" or "поиск",
`generate_code_for_tasks` (when it completes) records snippets under exactly
the names of the tasks whose lowercased category contains "разработка" or
"код", and with no decomposed idea both steps return empty maps. -/
theorem c9_steps_select_on_category (web wiki gen : String → Except String String)
    (d : AdvancedAgent.DecomposedIdea) (k : String) (st : AdvancedAgent.AgentState) :
    (AdvancedAgent.research_tasks web wiki { st with decomposed_idea := some d } =
      [AdvancedAgent.FieldUpd.research (AdvancedAgent.researchDict web wiki d)]) ∧
    (k ∈ keys (AdvancedAgent.researchDict web wiki d) ↔
      k ∈ (d.tasks.filter AdvancedAgent.researchCond).map AdvancedAgent.Task.name) ∧
    (∀ cs, AdvancedAgent.codeDict gen d = Except.ok cs →
      (AdvancedAgent.generate_code_for_tasks gen
          { st with decomposed_idea := some d } =
        Except.ok [AdvancedAgent.FieldUpd.code cs]) ∧
      (k ∈ keys cs ↔
        k ∈ (d.tasks.filter AdvancedAgent.codeCond).map AdvancedAgent.Task.name)) ∧
    (AdvancedAgent.research_tasks web wiki { st with decomposed_idea := none } =
      [AdvancedAgent.FieldUpd.research []]) ∧
    (AdvancedAgent.generate_code_for_tasks gen { st with decomposed_idea := none } =
      Except.ok [AdvancedAgent.FieldUpd.code []]) := by
  refine ⟨rfl, ?_, ?_, rfl, rfl⟩
  · have h := mem_keys_condFold AdvancedAgent.researchCond
      (fun task =>
        ({ web_search := AdvancedAgent.search_web (web (d.summary ++ " " ++ task.name))
           wikipedia := AdvancedAgent.search_wikipedia (wiki task.name) } :
          AdvancedAgent.ResearchInfo))
      d.tasks [] k
    simpa [AdvancedAgent.researchDict, keys] using h
  · intro cs hcs
    refine ⟨?_, ?_⟩
    · simp [AdvancedAgent.generate_code_for_tasks, hcs, Except.map]
    · have h := mem_keys_condFoldM AdvancedAgent.codeCond
        (fun task => AdvancedAgent.generate_code_snippet
          (gen (d.summary ++ " - " ++ task.description)))
        k d.tasks [] cs hcs
      simpa [keys] using h

/-- Witness for C9 at a concrete decomposed idea: the code-snippet dict of a
completed `generate_code_for_tasks` run is keyed by exactly the matching
task names. -/
theorem c9_steps_select_on_category_witness :
    "build" ∈ keys ([("build", "сводка - d3")] : Dict String) ↔
      "build" ∈ (c9Idea.tasks.filter AdvancedAgent.codeCond).map
        AdvancedAgent.Task.name :=
  ((c9_steps_select_on_category (fun s => Except.ok s) (fun s => Except.ok s)
      (fun s => Except.ok s) c9Idea "build" default).2.2.1
    [("build", "сводка - d3")] rfl).2

/-- Witness for C7: the load fails with the key absent and succeeds with a
non-empty key. -/
theorem c7_api_key_required_witness :
    (IdeaAgent.moduleLoad none = Except.error IdeaAgent.keyErrorMsg ∧
     AdvancedAgent.moduleLoad none = Except.error IdeaAgent.keyErrorMsg) ∧
    (IdeaAgent.moduleLoad (some "sk-key") =
       Except.ok { model := "deepseek-chat", max_tokens := 4000 } ∧
     AdvancedAgent.moduleLoad (some "sk-key") =
       Except.ok { model := "deepseek-chat", max_tokens := 4000 }) :=
  ⟨(c7_api_key_required none).1 (Or.inl rfl),
   (c7_api_key_required (some "sk-key")).2 "sk-key" rfl (by decide)⟩
